import Mathlib

/-!
Verification of the iromlab GUI front-end (src/iromlab/iromlab.py) against its
natural-language specification.  The Python source is shallowly embedded below:
pure fragments become Lean functions, the stateful GUI event loop becomes an
explicit step function on a state record, and exceptional control flow becomes
explicit outcome constructors.
-/

namespace Iromlab

/-! ## Python string primitives

Models of the Python builtins used by iromlab.py: `str.strip()` and `int(s)`
on strings (ASCII approximation: Python also strips some Unicode whitespace
and accepts non-ASCII decimal digits, which never arise here). -/

/-- Characters removed by Python `str.strip()` (ASCII whitespace). -/
def pyWS (c : Char) : Bool :=
  c = ' ' || c = '\t' || c = '\n' || c = '\x0d' || c = '\x0b' || c = '\x0c'

/-- Model of Python `str.strip()`: drop leading and trailing whitespace. -/
def pyStrip (s : String) : String :=
  String.mk (((s.data.dropWhile pyWS).reverse.dropWhile pyWS).reverse)

/-- Parse a nonempty run of decimal digits in which single underscores may
occur between digits (Python 3 integer-literal grammar used by `int(s)`);
accumulates the value.  Returns `none` on a leading, trailing or doubled
underscore or any non-digit. -/
def pyDigitsAux : List Char → Nat → Option Nat
  | [], acc => some acc
  | ['_'], _ => none
  | '_' :: c :: rest, acc =>
      if c.isDigit then pyDigitsAux rest (acc * 10 + (c.toNat - 48)) else none
  | c :: rest, acc =>
      if c.isDigit then pyDigitsAux rest (acc * 10 + (c.toNat - 48)) else none

/-- Parse a digit run (first character must be a digit). -/
def pyDigits : List Char → Option Nat
  | [] => none
  | c :: rest => if c.isDigit then pyDigitsAux rest (c.toNat - 48) else none

/-- Sign handling of Python `int(s)` after stripping whitespace. -/
def pythonIntCore : List Char → Option Int
  | '+' :: rest => (pyDigits rest).map Int.ofNat
  | '-' :: rest => (pyDigits rest).map (fun n => -(n : Int))
  | rest => (pyDigits rest).map Int.ofNat

/-- Model of Python `int(s)` on a string: `some n` when the conversion
succeeds, `none` when it raises `ValueError`. -/
def pythonIntOpt (s : String) : Option Int :=
  pythonIntCore (pyStrip s).data

/-- iromlab.py lines 635-642: `representsInt(s)` returns True when `int(s)`
succeeds and False when it raises `ValueError`. -/
def representsInt (s : String) : Bool :=
  (pythonIntOpt s).isSome

/-! ## Batch manifest (on_create / on_open)

iromlab.py lines 96-184 (`on_create`) and 186-236 (`on_open`).  The manifest
file is modelled as a list of rows, each row a list of cell strings; the file
itself is `Option`: `none` when `manifest.csv` does not exist yet. -/

/-- The fixed header row assigned at iromlab.py lines 123-133.  Note the
assignment only happens when `manifest.csv` does not already exist. -/
def headerBatchManifest : List String :=
  ["jobID", "PPN", "volumeNo", "title", "volumeID", "success",
   "containsAudio", "containsData", "cdExtra", "mixedMode", "cdInteractive"]

/-- Effect of `on_create` (iromlab.py lines 118-143) on the manifest file.
When the file does not exist, the append-mode open creates it and
`csvBm.writerow(headerBatchManifest)` writes the single header row.
When the file already exists, the local name `headerBatchManifest` was never
assigned (the assignment at line 123 is guarded by line 122), so line 142
raises `UnboundLocalError` before anything is written; the append-mode open
leaves the existing content unchanged.  The Bool result is `true` when the
write completed without raising. -/
def onCreateManifest : Option (List (List String)) → Bool × List (List String)
  | none => (true, [headerBatchManifest])
  | some rows => (false, rows)

/-- Effect of `on_open` (iromlab.py lines 186-236) on the manifest file:
`on_open` only records the manifest path (line 196) and never opens or
writes the manifest, so the rows are unchanged. -/
def onOpenManifest (rows : List (List String)) : List (List String) :=
  rows

/-! ## Catalog lookup data (kbapi sru)

The SRU client is an external collaborator; `on_submit` only reads
`response.sru.nr_of_records`, `next(response.records)` and the three title
lists of that record.  A falsy response (`if not response`) is `none`. -/

/-- The fields of one SRU record read by `on_submit` (lines 316-332). -/
structure SruRecord where
  titlesMain : List String
  titlesIntermediate : List String
  titles : List String
deriving DecidableEq

/-- The fields of an SRU response read by `on_submit`: the record count and
the record iterator (as the list of remaining records). -/
structure SruResponse where
  nrOfRecords : Nat
  records : List SruRecord
deriving DecidableEq

/-! ## on_submit (iromlab.py lines 265-366)

`on_submit` is embedded as a pure function of the configuration flags, the
widget contents, the catalog-lookup function and the operator's dialog
answers.  Exceptions raised while deriving the title (`StopIteration` from
`next` on an empty iterator, `IndexError` from `titles[0]` on an empty list)
become explicit outcomes. -/

/-- The per-job data handed to `cdworker.processDisc` (lines 345-349). -/
structure CarrierData where
  jobID : String
  PPN : String
  title : String
  volumeNo : String
deriving DecidableEq

/-- Outcome of one `on_submit` call: one of the four `showerror` rejection
paths (lines 299-312), an uncaught exception while deriving the title, a
declined confirmation dialog (line 335), or a job handed to the worker
thread (line 365). -/
inductive SubmitOutcome
  | errNotReady
  | errTypeMismatch
  | errValueError
  | errPPNNotFound
  | exnNoRecord
  | exnNoTitle
  | notConfirmed
  | submitted (c : CarrierData)
deriving DecidableEq

/-- Title derivation of lines 316-332: prefer `titlesMain[0]` (appending
`titlesIntermediate[0]` when present), else `titles[0]`; `none` models the
`IndexError` when both lists are empty. -/
def titleFromRecord (r : SruRecord) : Option String :=
  match r.titlesMain with
  | t :: _ =>
      match r.titlesIntermediate with
      | ti :: _ => some (t ++ ", " ++ ti)
      | [] => some t
  | [] =>
      match r.titles with
      | t :: _ => some t
      | [] => none

/-- Inputs of one `on_submit` call that come from outside the function: the
three entry widgets, the external `sru.search` call (`none` models a falsy
response), the operator's answer to the `askyesno` confirmation for a shown
title, and the generated job UUID. -/
structure SubmitInput where
  catidEntry : String
  titleEntry : String
  volumeNoEntry : String
  lookup : String → Option SruResponse
  confirmTitle : String → Bool
  jobID : String

/-- The tail of `on_submit` once a title is available (lines 334-349): the
`askyesno` confirmation, the load-disc prompt, and the carrier dictionary
handed to the worker thread. -/
def confirmAndSubmit (i : SubmitInput) (catid title volumeNo : String) :
    SubmitOutcome :=
  if i.confirmTitle title then
    .submitted { jobID := i.jobID, PPN := catid, title := title, volumeNo := volumeNo }
  else .notConfirmed

/-- Shallow embedding of `on_submit` (iromlab.py lines 265-366), as a pure
function of the two configuration flags it reads and the external inputs.
The setting of `config.processingDisc = True` at line 268 is part of the
stateful wrapper `doSubmit` below.  Control flow follows the source: fetch
and strip the entries (lines 272-281), perform the catalog lookup unless
the stripped identifier is empty (lines 283-297), then the four-way
validation chain (lines 299-312), then title derivation (lines 314-332;
the `lookupResult = none` arm is unreachable there because the record-count
guard already fired), and finally `confirmAndSubmit`. -/
def onSubmit (enablePPNLookup batchIsOpen : Bool) (i : SubmitInput) : SubmitOutcome :=
  let catid := if enablePPNLookup then pyStrip i.catidEntry else ""
  let volumeNo := pyStrip i.volumeNoEntry
  let lookupResult : Option SruResponse :=
    if enablePPNLookup && !(catid == "") then i.lookup catid else none
  let noGGCRecords : Nat :=
    if enablePPNLookup then
      match lookupResult with
      | none => 0
      | some r => r.nrOfRecords
    else 1
  if !batchIsOpen then .errNotReady
  else if !(representsInt volumeNo) then .errTypeMismatch
  else if (pythonIntOpt volumeNo).getD 0 < 1 then .errValueError
  else if noGGCRecords = 0 then .errPPNNotFound
  else
    if enablePPNLookup then
      match lookupResult with
      | none => .errPPNNotFound
      | some r =>
          match r.records with
          | [] => .exnNoRecord
          | r0 :: _ =>
              match titleFromRecord r0 with
              | none => .exnNoTitle
              | some title => confirmAndSubmit i catid title volumeNo
    else confirmAndSubmit i catid (pyStrip i.titleEntry) volumeNo

/-! ## GUI event system (carrierEntry + main loop)

The shared flags on the `config` module, the relevant widget states and the
set of running worker threads are gathered into one state record; the Tk
callbacks, the worker-completion signal and the body of `main`'s polling
loop become events interpreted by a step function.

Tk runtime facts reflected by the model: callbacks and the polling loop run
on the single main thread, so while `on_quit` sleeps in its wait loop
(lines 89-90) no other callback and no main-loop iteration runs (the state
is `blocked`); a `bind_all` key binding (line 522) fires independently of
the Submit button's `disabled` state, and `Entry.get()` works on disabled
entries. -/

/-- Shared flags, widget states and thread count read and written by the
carrierEntry callbacks and by `main` (iromlab.py lines 45-94, 265-366,
821-870). -/
structure GuiState where
  enablePPNLookup : Bool
  startOnFinalize : Bool
  batchIsOpen : Bool
  readyToStart : Bool
  processingDisc : Bool
  finishedDisc : Bool
  quitFlag : Bool
  blocked : Bool
  exited : Bool
  submitEnabled : Bool
  workers : Nat
  jobs : List CarrierData
deriving DecidableEq

/-- The state right after `carrierEntry.__init__` and `build_gui`
(lines 51-67: `readyToStart = False`, no batch open, Submit disabled,
no worker running). -/
def initState (enablePPNLookup startOnFinalize : Bool) : GuiState :=
  { enablePPNLookup := enablePPNLookup
    startOnFinalize := startOnFinalize
    batchIsOpen := false
    readyToStart := false
    processingDisc := false
    finishedDisc := false
    quitFlag := false
    blocked := false
    exited := false
    submitEnabled := false
    workers := 0
    jobs := [] }

/-- Events delivered to the GUI process: the New-batch callback, a click on
the Submit button (delivered only while the button is enabled), the
Control-s key binding (delivered regardless of the button state, line 522),
completion of a running `cdworker.processDisc` thread, one iteration of
`main`'s polling loop (lines 843-847), and the Exit callback. -/
inductive GuiEvent
  | create
  | submitClick (i : SubmitInput)
  | submitKey (i : SubmitInput)
  | workerFinish
  | tick
  | quit

/-- One full run of `on_submit` (lines 265-366): line 268 sets
`config.processingDisc = True` unconditionally, before any validation, and
nothing in `on_submit` ever resets it; when the carrier is accepted the
Submit button is disabled (line 362) and a worker thread is started
(lines 365-366). -/
def doSubmit (s : GuiState) (i : SubmitInput) : GuiState :=
  let s1 := { s with processingDisc := true }
  match onSubmit s1.enablePPNLookup s1.batchIsOpen i with
  | .submitted c =>
      { s1 with workers := s1.workers + 1
                jobs := s1.jobs ++ [c]
                submitEnabled := false }
  | _ => s1

/-- Step function of the GUI process.

Once `os._exit(0)` has run (`exited`), nothing further happens.  While the
main thread is stuck in `on_quit`'s wait loop (`blocked`, lines 89-90), only
the worker thread can act; in particular the main loop (lines 843-847),
which is the only code that resets `processingDisc` to `False` (line 846),
cannot run.

Per event: `create` follows `on_create` lines 164-183 (New is disabled once
a batch is open, so the event only acts when no batch is open; it enables
Submit and sets `readyToStart` unless `startOnFinalize` is configured);
`workerFinish` is modelled from the spec: `cdworker.processDisc` is not
under src/, and the spec says the core signals completion back via a shared
flag that the caller polls — that flag is `config.finishedDisc`, polled at
line 843; `tick` follows lines 843-847 (`join` the thread, `reset_carrier`
re-enables Submit, then reset the two flags); `quit` follows `on_quit`
lines 69-94 (immediate exit when `readyToStart` is false, otherwise a wait
loop on `processingDisc` that blocks the main thread: it exits at once when
the flag is already false and otherwise never observes it change). -/
def onCreateEv (s : GuiState) : GuiState :=
  if s.batchIsOpen then s
  else { s with batchIsOpen := true
                submitEnabled := true
                readyToStart := !s.startOnFinalize }

def onWorkerFinishEv (s : GuiState) : GuiState :=
  if s.workers = 0 then s
  else { s with finishedDisc := true, workers := s.workers - 1 }

def onTickEv (s : GuiState) : GuiState :=
  if s.finishedDisc then
    { s with processingDisc := false
             finishedDisc := false
             submitEnabled := true }
  else s

def onQuitEv (s : GuiState) : GuiState :=
  if !s.readyToStart then { s with quitFlag := true, exited := true }
  else if s.processingDisc then { s with quitFlag := true, blocked := true }
  else { s with quitFlag := true, exited := true }

def step (s : GuiState) (e : GuiEvent) : GuiState :=
  if s.exited then s
  else if s.blocked then
    match e with
    | .create => s
    | .submitClick _ => s
    | .submitKey _ => s
    | .workerFinish => onWorkerFinishEv s
    | .tick => s
    | .quit => s
  else
    match e with
    | .create => onCreateEv s
    | .submitClick i => if s.submitEnabled then doSubmit s i else s
    | .submitKey i => doSubmit s i
    | .workerFinish => onWorkerFinishEv s
    | .tick => onTickEv s
    | .quit => onQuitEv s

/-- Run a sequence of events from a state. -/
def run (s : GuiState) : List GuiEvent → GuiState
  | [] => s
  | e :: es => run (step s e) es

/-! ## getConfiguration (iromlab.py lines 691-818)

`getConfiguration` is called exactly once, from `build_gui` (line 411),
during construction of the `carrierEntry` frame — before the main loop and
therefore before any job can be submitted.  Its inputs are the parsed
configuration file, the results of the filesystem existence checks, and the
drive list returned by the external `cdinfo.getDrives()`. -/

/-- The configuration file as seen by `getConfiguration`: whether it exists
(line 718), could be read (line 724) and parsed (line 733), and the text of
each element that `findElementText` may be asked for (`none` when the
element is absent). -/
structure ConfigFile where
  present : Bool
  readable : Bool
  parseOk : Bool
  cdDriveLetter : Option String
  rootDir : Option String
  tempDir : Option String
  secondsToTimeout : Option String
  prefixBatch : Option String
  audioFormat : Option String
  reportFormatString : Option String
  isoBusterExe : Option String
  dBpowerampConsoleRipExe : Option String
  socketHost : Option String
  socketPort : Option String
  enablePPNLookup : Option String
  startOnFinalize : Option String
  enableSocketAPI : Option String
deriving DecidableEq

/-- Results of the `os.path.isdir` / `os.path.isfile` checks performed at
lines 800-806 (`checkDirExists` / `checkFileExists`). -/
structure Filesystem where
  rootDirExists : Bool
  tempDirExists : Bool
  isoBusterExeExists : Bool
  dBpowerampExeExists : Bool
  shntoolExeExists : Bool
  flacExeExists : Bool
  cdInfoExeExists : Bool
deriving DecidableEq

/-- Each `errorExit` / `sys.exit` path of `getConfiguration`, in source
order. -/
inductive StartupError
  | configFileNotFound
  | configFileUnreadable
  | configParseError
  | missingElement (path : String)
  | dirNotFound (d : String)
  | fileNotFound (f : String)
  | driveNotFound
  | badAudioFormat
deriving DecidableEq

/-- The required configuration values (lines 745-753): `findElementText`
calls `errorExit` when the element is missing. -/
structure StartupRaw where
  cdDriveLetter : String
  rootDir : String
  tempDir : String
  secondsToTimeout : String
  prefixBatch : String
  audioFormat : String
  reportFormatString : String
  isoBusterExe : String
  dBpowerampConsoleRipExe : String
deriving DecidableEq

/-- The validated configuration produced when every check passes.  The
optional values (lines 757-785) never cause an exit: the bare `except`
blocks swallow any error, keeping the defaults from config.py (`none`
here). -/
structure StartupConfig where
  raw : StartupRaw
  socketHost : Option String
  socketPort : Option String
  enablePPNLookup : Option Bool
  startOnFinalize : Option Bool
  enableSocketAPI : Option Bool
deriving DecidableEq

/-- Extraction of the nine required elements (lines 745-753), in source
order; the first missing element aborts via `findElementText` →
`errorExit`. -/
def requiredFields (cf : ConfigFile) : Except StartupError StartupRaw :=
  match cf.cdDriveLetter with
  | none => .error (.missingElement ("cdDriveLetter"))
  | some cdDriveLetter =>
  match cf.rootDir with
  | none => .error (.missingElement ("rootDir"))
  | some rootDir =>
  match cf.tempDir with
  | none => .error (.missingElement ("tempDir"))
  | some tempDir =>
  match cf.secondsToTimeout with
  | none => .error (.missingElement ("secondsToTimeout"))
  | some secondsToTimeout =>
  match cf.prefixBatch with
  | none => .error (.missingElement ("prefixBatch"))
  | some prefixBatch =>
  match cf.audioFormat with
  | none => .error (.missingElement ("audioFormat"))
  | some audioFormat =>
  match cf.reportFormatString with
  | none => .error (.missingElement ("reportFormatString"))
  | some reportFormatString =>
  match cf.isoBusterExe with
  | none => .error (.missingElement ("isoBusterExe"))
  | some isoBusterExe =>
  match cf.dBpowerampConsoleRipExe with
  | none => .error (.missingElement ("dBpowerampConsoleRipExe"))
  | some dBpowerampConsoleRipExe =>
  .ok { cdDriveLetter := cdDriveLetter
        rootDir := rootDir
        tempDir := tempDir
        secondsToTimeout := secondsToTimeout
        prefixBatch := prefixBatch
        audioFormat := audioFormat
        reportFormatString := reportFormatString
        isoBusterExe := isoBusterExe
        dBpowerampConsoleRipExe := dBpowerampConsoleRipExe }

/-- Parsing of one optional boolean flag (lines 765-785): the element text
is compared against the string True; a missing element keeps the config.py
default. -/
def parseOptionalFlag (v : Option String) : Option Bool :=
  v.map (fun t => t == "True")

/-- The existence, drive and audio-format checks (lines 798-818), in source
order: the two directory checks, the five tool-file checks, the check that
`cdDriveLetter` is among the drives returned by `cdinfo.getDrives()`
(lines 808-813), and last the check that `audioFormat` is wav or flac
(lines 815-818). -/
def runChecks (rc : StartupRaw) (cf : ConfigFile) (fs : Filesystem)
    (drives : List String) : Except StartupError StartupConfig :=
  if !fs.rootDirExists then .error (.dirNotFound rc.rootDir)
  else if !fs.tempDirExists then .error (.dirNotFound rc.tempDir)
  else if !fs.isoBusterExeExists then .error (.fileNotFound rc.isoBusterExe)
  else if !fs.dBpowerampExeExists then .error (.fileNotFound rc.dBpowerampConsoleRipExe)
  else if !fs.shntoolExeExists then .error (.fileNotFound ("shntool.exe"))
  else if !fs.flacExeExists then .error (.fileNotFound ("flac.exe"))
  else if !fs.cdInfoExeExists then .error (.fileNotFound ("cd-info.exe"))
  else if !(drives.contains rc.cdDriveLetter) then .error .driveNotFound
  else if !(rc.audioFormat == "wav" || rc.audioFormat == "flac") then
    .error .badAudioFormat
  else
    .ok { raw := rc
          socketHost := cf.socketHost
          socketPort := cf.socketPort
          enablePPNLookup := parseOptionalFlag cf.enablePPNLookup
          startOnFinalize := parseOptionalFlag cf.startOnFinalize
          enableSocketAPI := parseOptionalFlag cf.enableSocketAPI }

/-- Shallow embedding of `getConfiguration` (lines 691-818): file presence,
readability and parse checks, required-element extraction, then the
existence/drive/format checks.  `drives` is the result of the external
`cdinfo.getDrives()` call at line 809. -/
def getConfiguration (cf : ConfigFile) (fs : Filesystem)
    (drives : List String) : Except StartupError StartupConfig :=
  if !cf.present then .error .configFileNotFound
  else if !cf.readable then .error .configFileUnreadable
  else if !cf.parseOk then .error .configParseError
  else
    match requiredFields cf with
    | .error e => .error e
    | .ok rc => runChecks rc cf fs drives

/-! ## Theorems -/

/-- C1: For every batch, creating or resuming it results in the batch
manifest containing exactly one header row, whose cells are the 11 fixed
column names jobID, PPN, volumeNo, title, volumeID, success, containsAudio,
containsData, cdExtra, mixedMode, cdInteractive in that order; in
particular on_create, when called for a batch folder whose manifest.csv
already exists, appends no second header row and leaves the existing
file's rows unchanged (the write aborts with an unbound-local error before
touching the file). -/
theorem C1_manifest_single_header :
    onCreateManifest none = (true, [headerBatchManifest]) ∧
    headerBatchManifest =
      ["jobID", "PPN", "volumeNo", "title", "volumeID", "success",
       "containsAudio", "containsData", "cdExtra", "mixedMode", "cdInteractive"] ∧
    headerBatchManifest.length = 11 ∧
    (∀ rows, onCreateManifest (some rows) = (false, rows)) ∧
    (∀ rows, onOpenManifest rows = rows) :=
  ⟨rfl, rfl, rfl, fun _ => rfl, fun _ => rfl⟩

/-- C10: The volume number handed to the worker in carrierData is the
entered string with leading and trailing whitespace stripped, not a
normalized integer: whatever string passes the integer validation is
passed through verbatim after stripping. -/
theorem C10_volumeNo_passed_verbatim (e o : Bool) (i : SubmitInput)
    (c : CarrierData) (h : onSubmit e o i = SubmitOutcome.submitted c) :
    c.volumeNo = pyStrip i.volumeNoEntry := by
  simp only [onSubmit, confirmAndSubmit] at h
  repeat' split at h
  all_goals first
    | exact SubmitOutcome.noConfusion h
    | (cases h; rfl)

/-- C10 witness: the entry with text " 007 " is handed to the worker as
the string "007" (stripped, not normalized to "7"). -/
theorem C10_volumeNo_passed_verbatim_witness :
    ({ jobID := "j1", PPN := "", title := "Some title", volumeNo := "007" } :
        CarrierData).volumeNo = pyStrip " 007 " ∧
    pyStrip " 007 " = "007" :=
  ⟨C10_volumeNo_passed_verbatim false true
      { catidEntry := "", titleEntry := "Some title", volumeNoEntry := " 007 ",
        lookup := fun _ => none, confirmTitle := fun _ => true, jobID := "j1" }
      { jobID := "j1", PPN := "", title := "Some title", volumeNo := "007" }
      (by decide),
   by decide⟩

/-- Outcomes in which `on_submit` reported a `showerror` validation message
and handed nothing to the worker (lines 299-307). -/
def isEntryValidationError : SubmitOutcome → Bool
  | .errNotReady => true
  | .errTypeMismatch => true
  | .errValueError => true
  | _ => false

/-- C5: on_submit starts a worker job only if the entered volume number
string represents an integer and that integer is at least 1; otherwise it
reports a validation error and submits no job, so every submitted carrier
satisfies volumeNo >= 1. -/
theorem C5_volumeNo_validated (e o : Bool) (i : SubmitInput) :
    (∀ c, onSubmit e o i = SubmitOutcome.submitted c →
       ∃ n : Int, pythonIntOpt c.volumeNo = some n ∧ 1 ≤ n) ∧
    (representsInt (pyStrip i.volumeNoEntry) = false ∨
        (pythonIntOpt (pyStrip i.volumeNoEntry)).getD 0 < 1 →
      isEntryValidationError (onSubmit e o i) = true) := by
  constructor
  · intro c h
    simp only [onSubmit, confirmAndSubmit] at h
    split at h
    · exact SubmitOutcome.noConfusion h
    split at h
    · exact SubmitOutcome.noConfusion h
    rename_i hrep
    split at h
    · exact SubmitOutcome.noConfusion h
    rename_i hval
    have hrep2 : representsInt (pyStrip i.volumeNoEntry) = true := by
      simpa using hrep
    rw [representsInt, Option.isSome_iff_exists] at hrep2
    obtain ⟨n, hn⟩ := hrep2
    have h1 : (1 : Int) ≤ n := by
      have h2 := not_lt.mp hval
      simpa [hn] using h2
    repeat' split at h
    all_goals first
      | exact SubmitOutcome.noConfusion h
      | (cases h; exact ⟨n, hn, h1⟩)
  · intro hbad
    simp only [onSubmit, confirmAndSubmit]
    repeat' split
    all_goals simp_all [isEntryValidationError, representsInt]

/-- C5 witness: with the batch open and volume number 2 entered, a job is
submitted and its volume number parses to 2 >= 1; with volume number 0 the
outcome is a validation error. -/
theorem C5_volumeNo_validated_witness :
    (∃ n : Int, pythonIntOpt "2" = some n ∧ 1 ≤ n) ∧
    isEntryValidationError
      (onSubmit false true
        { catidEntry := "", titleEntry := "T", volumeNoEntry := "0",
          lookup := fun _ => none, confirmTitle := fun _ => true,
          jobID := "j2" }) = true :=
  ⟨(C5_volumeNo_validated false true
      { catidEntry := "", titleEntry := "T", volumeNoEntry := "2",
        lookup := fun _ => none, confirmTitle := fun _ => true,
        jobID := "j2" }).1
      { jobID := "j2", PPN := "", title := "T", volumeNo := "2" } (by decide),
   (C5_volumeNo_validated false true
      { catidEntry := "", titleEntry := "T", volumeNoEntry := "0",
        lookup := fun _ => none, confirmTitle := fun _ => true,
        jobID := "j2" }).2 (Or.inr (by decide))⟩

/-- C2 counterexample: in PPN-lookup mode a successfully submitted carrier
has BOTH its PPN field and its title field populated (the title is copied
from the catalog record at lines 316-332 and stored at line 348), refuting
the claim that exactly one of the two is populated. -/
theorem C2_counterexample :
    onSubmit true true
      { catidEntry := "12345", titleEntry := "", volumeNoEntry := "1",
        lookup := fun s =>
          if s = "12345" then
            some { nrOfRecords := 1,
                   records := [{ titlesMain := ["Some work"],
                                 titlesIntermediate := [], titles := [] }] }
          else none,
        confirmTitle := fun _ => true, jobID := "j3" } =
      SubmitOutcome.submitted
        { jobID := "j3", PPN := "12345", title := "Some work", volumeNo := "1" } ∧
    ("12345" : String) ≠ "" ∧ ("Some work" : String) ≠ "" := by
  refine ⟨by decide, by decide, by decide⟩

/-- C2 amended: in the submitted carrier data the PPN field is non-empty
exactly when PPN-lookup mode is enabled, while the title field is always
assigned — in PPN mode from the first catalog record returned by the lookup
(via the title-derivation rules of lines 316-332), in title mode from the
entered title; neither assignment checks for a non-empty title, so the
original exactly-one-populated statement fails (both fields populated in
PPN mode whenever the record carries a non-empty title, as the
counterexample shows). -/
theorem C2_amended (e o : Bool) (i : SubmitInput) (c : CarrierData)
    (h : onSubmit e o i = SubmitOutcome.submitted c) :
    (c.PPN ≠ "" ↔ e = true) ∧
    (e = false → c.title = pyStrip i.titleEntry) ∧
    (e = true → ∃ r r0, i.lookup (pyStrip i.catidEntry) = some r ∧
       r.records.head? = some r0 ∧ titleFromRecord r0 = some c.title) := by
  cases e with
  | false =>
      simp [onSubmit, confirmAndSubmit] at h
      repeat' split at h
      all_goals first
        | exact SubmitOutcome.noConfusion h
        | (cases h; exact ⟨by simp, fun _ => rfl, by simp⟩)
  | true =>
      by_cases hc : pyStrip i.catidEntry = ""
      · simp [onSubmit, confirmAndSubmit, hc] at h
        repeat' split at h
        all_goals exact SubmitOutcome.noConfusion h
      · cases hlk : i.lookup (pyStrip i.catidEntry) with
        | none =>
            simp [onSubmit, confirmAndSubmit, hc, hlk] at h
            repeat' split at h
            all_goals exact SubmitOutcome.noConfusion h
        | some r =>
            cases hrs : r.records with
            | nil =>
                simp [onSubmit, confirmAndSubmit, hc, hlk, hrs] at h
                repeat' split at h
                all_goals exact SubmitOutcome.noConfusion h
            | cons r0 tl =>
                cases ht : titleFromRecord r0 with
                | none =>
                    simp [onSubmit, confirmAndSubmit, hc, hlk, hrs, ht] at h
                    repeat' split at h
                    all_goals exact SubmitOutcome.noConfusion h
                | some t =>
                    simp [onSubmit, confirmAndSubmit, hc, hlk, hrs, ht] at h
                    repeat' split at h
                    all_goals first
                      | exact SubmitOutcome.noConfusion h
                      | (cases h
                         exact ⟨by simp [hc], by simp,
                                fun _ => ⟨r, r0, rfl, by rw [hrs]; rfl, ht⟩⟩)

/-- C2 amended witness: in title mode the submitted carrier has an empty
PPN field and carries the entered title; in PPN mode the submitted
carrier's PPN field is non-empty. -/
theorem C2_amended_witness :
    ((({ jobID := "j4", PPN := "", title := "My title", volumeNo := "1" } :
          CarrierData).PPN ≠ "") ↔ false = true) ∧
    (({ jobID := "j4", PPN := "", title := "My title", volumeNo := "1" } :
          CarrierData).title = pyStrip " My title ") ∧
    ((({ jobID := "j4b", PPN := "67890", title := "Work B", volumeNo := "2" } :
          CarrierData).PPN ≠ "") ↔ true = true) :=
  ⟨(C2_amended false true
      { catidEntry := "", titleEntry := " My title ", volumeNoEntry := "1",
        lookup := fun _ => none, confirmTitle := fun _ => true, jobID := "j4" }
      { jobID := "j4", PPN := "", title := "My title", volumeNo := "1" }
      (by decide)).1,
   (C2_amended false true
      { catidEntry := "", titleEntry := " My title ", volumeNoEntry := "1",
        lookup := fun _ => none, confirmTitle := fun _ => true, jobID := "j4" }
      { jobID := "j4", PPN := "", title := "My title", volumeNo := "1" }
      (by decide)).2.1 rfl,
   (C2_amended true true
      { catidEntry := "67890", titleEntry := "", volumeNoEntry := "2",
        lookup := fun s =>
          if s = "67890" then
            some { nrOfRecords := 1,
                   records := [{ titlesMain := ["Work B"],
                                 titlesIntermediate := [], titles := [] }] }
          else none,
        confirmTitle := fun _ => true, jobID := "j4b" }
      { jobID := "j4b", PPN := "67890", title := "Work B", volumeNo := "2" }
      (by decide)).1⟩

/-- C9 counterexample: in PPN-lookup mode with a whitespace-only catalog
identifier, when no batch is open the reported error is the Not-ready
message of line 300, not the PPN-not-found message of line 312 — refuting
the part of the claim that says a PPN-not-found error is reported. -/
theorem C9_counterexample :
    onSubmit true false
      { catidEntry := "   ", titleEntry := "", volumeNoEntry := "1",
        lookup := fun _ => some { nrOfRecords := 1, records := [] },
        confirmTitle := fun _ => true, jobID := "j5" } =
      SubmitOutcome.errNotReady ∧
    SubmitOutcome.errNotReady ≠ SubmitOutcome.errPPNNotFound :=
  ⟨by decide, by decide⟩

/-- C9 amended: in PPN-lookup mode a submission with an empty or
whitespace-only catalog identifier never creates a job and never calls the
catalog service (the outcome is the same for every lookup function, the
record count being taken as zero at line 286); the PPN-not-found error is
the one reported when the batch is open and the volume number is valid,
while otherwise the earlier validation error of the chain at lines 299-307
is reported instead. -/
theorem C9_amended (o : Bool) (i : SubmitInput)
    (hc : pyStrip i.catidEntry = "") :
    (∀ c, onSubmit true o i ≠ SubmitOutcome.submitted c) ∧
    (∀ g, onSubmit true o { i with lookup := g } = onSubmit true o i) ∧
    (o = true → representsInt (pyStrip i.volumeNoEntry) = true →
      ¬((pythonIntOpt (pyStrip i.volumeNoEntry)).getD 0 < 1) →
      onSubmit true o i = SubmitOutcome.errPPNNotFound) := by
  have key : ∀ x : SubmitInput, pyStrip x.catidEntry = "" →
      onSubmit true o x =
        if !o then SubmitOutcome.errNotReady
        else if !(representsInt (pyStrip x.volumeNoEntry)) then
          SubmitOutcome.errTypeMismatch
        else if (pythonIntOpt (pyStrip x.volumeNoEntry)).getD 0 < 1 then
          SubmitOutcome.errValueError
        else SubmitOutcome.errPPNNotFound := by
    intro x hx
    simp [onSubmit, hx]
  refine ⟨?_, ?_, ?_⟩
  · intro c h
    rw [key i hc] at h
    repeat' split at h
    all_goals exact SubmitOutcome.noConfusion h
  · intro g
    rw [key i hc, key { i with lookup := g } (by simpa using hc)]
  · intro ho hrep hval
    rw [key i hc, ho]
    simp [hrep, hval]

/-- C9 amended witness: with the batch open, volume number 1 and a
whitespace-only identifier, the outcome is the PPN-not-found error, no job
is created, and the outcome is unchanged when the lookup function is
replaced by one that would report five records. -/
theorem C9_amended_witness :
    onSubmit true true
      { catidEntry := "  ", titleEntry := "", volumeNoEntry := "1",
        lookup := fun _ => none, confirmTitle := fun _ => true, jobID := "j6" } ≠
      SubmitOutcome.submitted
        { jobID := "j6", PPN := "", title := "", volumeNo := "1" } ∧
    onSubmit true true
      { catidEntry := "  ", titleEntry := "", volumeNoEntry := "1",
        lookup := fun _ => some { nrOfRecords := 5, records := [] },
        confirmTitle := fun _ => true, jobID := "j6" } =
      onSubmit true true
      { catidEntry := "  ", titleEntry := "", volumeNoEntry := "1",
        lookup := fun _ => none, confirmTitle := fun _ => true, jobID := "j6" } ∧
    onSubmit true true
      { catidEntry := "  ", titleEntry := "", volumeNoEntry := "1",
        lookup := fun _ => none, confirmTitle := fun _ => true, jobID := "j6" } =
      SubmitOutcome.errPPNNotFound :=
  ⟨(C9_amended true
      { catidEntry := "  ", titleEntry := "", volumeNoEntry := "1",
        lookup := fun _ => none, confirmTitle := fun _ => true, jobID := "j6" }
      (by decide)).1
      { jobID := "j6", PPN := "", title := "", volumeNo := "1" },
   (C9_amended true
      { catidEntry := "  ", titleEntry := "", volumeNoEntry := "1",
        lookup := fun _ => none, confirmTitle := fun _ => true, jobID := "j6" }
      (by decide)).2.1
      (fun _ => some { nrOfRecords := 5, records := [] }),
   (C9_amended true
      { catidEntry := "  ", titleEntry := "", volumeNoEntry := "1",
        lookup := fun _ => none, confirmTitle := fun _ => true, jobID := "j6" }
      (by decide)).2.2 rfl (by decide) (by decide)⟩

/-! ### Trace lemmas for the GUI event system -/

/-- After `os._exit(0)` nothing further happens. -/
theorem step_of_exited (s : GuiState) (e : GuiEvent) (h : s.exited = true) :
    step s e = s := by
  simp [step, h]

theorem onCreateEv_exited (s : GuiState) : (onCreateEv s).exited = s.exited := by
  unfold onCreateEv; split <;> rfl

theorem onCreateEv_blocked (s : GuiState) : (onCreateEv s).blocked = s.blocked := by
  unfold onCreateEv; split <;> rfl

theorem onCreateEv_quitFlag (s : GuiState) : (onCreateEv s).quitFlag = s.quitFlag := by
  unfold onCreateEv; split <;> rfl

theorem onWorkerFinishEv_exited (s : GuiState) :
    (onWorkerFinishEv s).exited = s.exited := by
  unfold onWorkerFinishEv; split <;> rfl

theorem onWorkerFinishEv_blocked (s : GuiState) :
    (onWorkerFinishEv s).blocked = s.blocked := by
  unfold onWorkerFinishEv; split <;> rfl

theorem onWorkerFinishEv_quitFlag (s : GuiState) :
    (onWorkerFinishEv s).quitFlag = s.quitFlag := by
  unfold onWorkerFinishEv; split <;> rfl

theorem onWorkerFinishEv_jobs (s : GuiState) :
    (onWorkerFinishEv s).jobs = s.jobs := by
  unfold onWorkerFinishEv; split <;> rfl

theorem onTickEv_exited (s : GuiState) : (onTickEv s).exited = s.exited := by
  unfold onTickEv; split <;> rfl

theorem onTickEv_blocked (s : GuiState) : (onTickEv s).blocked = s.blocked := by
  unfold onTickEv; split <;> rfl

theorem onTickEv_quitFlag (s : GuiState) : (onTickEv s).quitFlag = s.quitFlag := by
  unfold onTickEv; split <;> rfl

/-- Flag effects of one `on_submit` call: line 268 sets `processingDisc`
unconditionally and nothing in `on_submit` resets it or touches the
quit/exit machinery. -/
theorem doSubmit_exited (s : GuiState) (i : SubmitInput) :
    (doSubmit s i).exited = s.exited := by
  unfold doSubmit; dsimp only; split <;> rfl

theorem doSubmit_blocked (s : GuiState) (i : SubmitInput) :
    (doSubmit s i).blocked = s.blocked := by
  unfold doSubmit; dsimp only; split <;> rfl

theorem doSubmit_quitFlag (s : GuiState) (i : SubmitInput) :
    (doSubmit s i).quitFlag = s.quitFlag := by
  unfold doSubmit; dsimp only; split <;> rfl

theorem doSubmit_processingDisc (s : GuiState) (i : SubmitInput) :
    (doSubmit s i).processingDisc = true := by
  unfold doSubmit; dsimp only; split <;> rfl

theorem onQuitEv_quitFlag (s : GuiState) : (onQuitEv s).quitFlag = true := by
  unfold onQuitEv; split <;> first | rfl | (split <;> rfl)

theorem onQuitEv_halted (s : GuiState) :
    (onQuitEv s).exited = true ∨ (onQuitEv s).blocked = true := by
  unfold onQuitEv
  split
  · exact Or.inl rfl
  split
  · exact Or.inr rfl
  · exact Or.inl rfl

theorem onQuitEv_jobs (s : GuiState) : (onQuitEv s).jobs = s.jobs := by
  unfold onQuitEv; split <;> first | rfl | (split <;> rfl)

theorem onQuitEv_readyToStart (s : GuiState) :
    (onQuitEv s).readyToStart = s.readyToStart := by
  unfold onQuitEv; split <;> first | rfl | (split <;> rfl)

theorem onQuitEv_processingDisc (s : GuiState) :
    (onQuitEv s).processingDisc = s.processingDisc := by
  unfold onQuitEv; split <;> first | rfl | (split <;> rfl)

/-- When `on_quit` reaches `os._exit(0)`, it has observed `readyToStart`
false (line 81) or `processingDisc` false (the wait-loop condition at
line 89). -/
theorem onQuitEv_exit (s : GuiState) (hx : s.exited = false)
    (h2 : (onQuitEv s).exited = true) :
    s.readyToStart = false ∨ s.processingDisc = false := by
  unfold onQuitEv at h2
  split at h2
  · rename_i g1
    simp only [Bool.not_eq_eq_eq_not, Bool.not_true] at g1
    exact Or.inl (by simpa using g1)
  split at h2
  · exact absurd (by simpa using h2) (by simp [hx])
  · rename_i g2
    exact Or.inr (by simpa using g2)

/-- While the main thread is stuck in the `on_quit` wait loop and no worker
thread is running, no event has any effect. -/
theorem step_of_frozen (s : GuiState) (e : GuiEvent) (hb : s.blocked = true)
    (hw : s.workers = 0) : step s e = s := by
  cases e <;> simp [step, hb, hw, onWorkerFinishEv]

/-- A frozen state stays frozen along any event sequence. -/
theorem run_of_frozen (s : GuiState) (evs : List GuiEvent) (hb : s.blocked = true)
    (hw : s.workers = 0) : run s evs = s := by
  induction evs with
  | nil => rfl
  | cons e es ih => rw [run, step_of_frozen s e hb hw]; exact ih

/-- Invariant: if the process has exited, then at the moment of exit
`on_quit` had observed either `readyToStart` false (line 81) or
`processingDisc` false (the wait-loop condition at line 89). -/
def ExitSafe (s : GuiState) : Prop :=
  s.exited = true → s.readyToStart = false ∨ s.processingDisc = false

theorem step_exitSafe (s : GuiState) (e : GuiEvent) (h : ExitSafe s) :
    ExitSafe (step s e) := by
  by_cases hx : s.exited = true
  · rw [step_of_exited s e hx]
    exact h
  · have hx0 : s.exited = false := by simpa using hx
    intro h2
    by_cases hbl : s.blocked = true
    · cases e <;>
        simp [step, hx0, hbl, onWorkerFinishEv_exited] at h2
    · have hbl0 : s.blocked = false := by simpa using hbl
      cases e
      · simp [step, hx0, hbl0, onCreateEv_exited] at h2
      · rename_i i
        by_cases hse : s.submitEnabled = true
        · simp [step, hx0, hbl0, hse, doSubmit_exited] at h2
        · simp [step, hx0, hbl0, hse] at h2
      · simp [step, hx0, hbl0, doSubmit_exited] at h2
      · simp [step, hx0, hbl0, onWorkerFinishEv_exited] at h2
      · simp [step, hx0, hbl0, onTickEv_exited] at h2
      · have hstep : step s GuiEvent.quit = onQuitEv s := by
          simp [step, hx0, hbl0]
        rw [hstep] at h2 ⊢
        rw [onQuitEv_readyToStart, onQuitEv_processingDisc]
        exact onQuitEv_exit s hx0 h2

theorem run_exitSafe (evs : List GuiEvent) (s : GuiState) (h : ExitSafe s) :
    ExitSafe (run s evs) := by
  induction evs generalizing s with
  | nil => exact h
  | cons e es ih => exact ih (step s e) (step_exitSafe s e h)

/-- Invariant: once `quitFlag` is set, the main thread has either exited or
is stuck in the `on_quit` wait loop. -/
def QuitHalted (s : GuiState) : Prop :=
  s.quitFlag = true → s.exited = true ∨ s.blocked = true

theorem step_quitHalted (s : GuiState) (e : GuiEvent) (h : QuitHalted s) :
    QuitHalted (step s e) := by
  by_cases hx : s.exited = true
  · rw [step_of_exited s e hx]
    exact h
  · have hx0 : s.exited = false := by simpa using hx
    intro h2
    by_cases hbl : s.blocked = true
    · cases e <;>
        simp [step, hx0, hbl, onWorkerFinishEv_blocked]
    · have hbl0 : s.blocked = false := by simpa using hbl
      cases e
      · rw [show step s GuiEvent.create = onCreateEv s by simp [step, hx0, hbl0],
            onCreateEv_quitFlag] at h2
        rcases h h2 with h3 | h3
        · exact absurd h3 (by simp [hx0])
        · exact absurd h3 (by simp [hbl0])
      · rename_i i
        by_cases hse : s.submitEnabled = true
        · rw [show step s (GuiEvent.submitClick i) = doSubmit s i by
              simp [step, hx0, hbl0, hse], doSubmit_quitFlag] at h2
          rcases h h2 with h3 | h3
          · exact absurd h3 (by simp [hx0])
          · exact absurd h3 (by simp [hbl0])
        · rw [show step s (GuiEvent.submitClick i) = s by
              simp [step, hx0, hbl0, hse]] at h2 ⊢
          exact h h2
      · rename_i i
        rw [show step s (GuiEvent.submitKey i) = doSubmit s i by
            simp [step, hx0, hbl0], doSubmit_quitFlag] at h2
        rcases h h2 with h3 | h3
        · exact absurd h3 (by simp [hx0])
        · exact absurd h3 (by simp [hbl0])
      · rw [show step s GuiEvent.workerFinish = onWorkerFinishEv s by
            simp [step, hx0, hbl0], onWorkerFinishEv_quitFlag] at h2
        rcases h h2 with h3 | h3
        · exact absurd h3 (by simp [hx0])
        · exact absurd h3 (by simp [hbl0])
      · rw [show step s GuiEvent.tick = onTickEv s by simp [step, hx0, hbl0],
            onTickEv_quitFlag] at h2
        rcases h h2 with h3 | h3
        · exact absurd h3 (by simp [hx0])
        · exact absurd h3 (by simp [hbl0])
      · rw [show step s GuiEvent.quit = onQuitEv s by simp [step, hx0, hbl0]]
        exact onQuitEv_halted s

theorem run_quitHalted (evs : List GuiEvent) (s : GuiState) (h : QuitHalted s) :
    QuitHalted (run s evs) := by
  induction evs generalizing s with
  | nil => exact h
  | cons e es ih => exact ih (step s e) (step_quitHalted s e h)

/-- An exited or wait-looping main thread accepts no further job: the jobs
handed to workers do not change, and the halted status persists. -/
theorem step_halted_jobs (s : GuiState) (e : GuiEvent)
    (h : s.exited = true ∨ s.blocked = true) :
    (step s e).jobs = s.jobs ∧
    ((step s e).exited = true ∨ (step s e).blocked = true) := by
  by_cases hx : s.exited = true
  · rw [step_of_exited s e hx]
    exact ⟨rfl, h⟩
  · have hb : s.blocked = true := by
      rcases h with h1 | h2
      · exact absurd h1 hx
      · exact h2
    have hx0 : s.exited = false := by simpa using hx
    cases e <;>
      simp [step, hx0, hb, onWorkerFinishEv_jobs, onWorkerFinishEv_blocked]

theorem run_halted_jobs (evs : List GuiEvent) (s : GuiState)
    (h : s.exited = true ∨ s.blocked = true) :
    (run s evs).jobs = s.jobs := by
  induction evs generalizing s with
  | nil => rfl
  | cons e es ih =>
      rw [run]
      rw [ih (step s e) (step_halted_jobs s e h).2]
      exact (step_halted_jobs s e h).1

/-- C3: with a batch open and a first carrier already handed to a worker
thread, on_submit has disabled the Submit button (line 362), and a click on
the disabled button indeed submits nothing; but the Control-s key binding
installed by `bind_all` at line 522 still invokes on_submit regardless of
the button state, and on_submit itself never checks `processingDisc`, so a
second worker thread is started while the first is still running: two jobs
are concurrently in Processing, contradicting the claim. -/
theorem C3_two_concurrent_workers :
    ((run (initState false false)
        [GuiEvent.create,
         GuiEvent.submitKey
           { catidEntry := "", titleEntry := "Disc A", volumeNoEntry := "1",
             lookup := fun _ => none, confirmTitle := fun _ => true,
             jobID := "jobA" },
         GuiEvent.submitKey
           { catidEntry := "", titleEntry := "Disc B", volumeNoEntry := "1",
             lookup := fun _ => none, confirmTitle := fun _ => true,
             jobID := "jobB" }]).workers = 2) ∧
    ((run (initState false false)
        [GuiEvent.create,
         GuiEvent.submitKey
           { catidEntry := "", titleEntry := "Disc A", volumeNoEntry := "1",
             lookup := fun _ => none, confirmTitle := fun _ => true,
             jobID := "jobA" }]).submitEnabled = false) ∧
    ((run (initState false false)
        [GuiEvent.create,
         GuiEvent.submitKey
           { catidEntry := "", titleEntry := "Disc A", volumeNoEntry := "1",
             lookup := fun _ => none, confirmTitle := fun _ => true,
             jobID := "jobA" },
         GuiEvent.submitClick
           { catidEntry := "", titleEntry := "Disc B", volumeNoEntry := "1",
             lookup := fun _ => none, confirmTitle := fun _ => true,
             jobID := "jobB" }]).workers = 1) :=
  ⟨by decide, by decide, by decide⟩

/-- C4 counterexample: with `startOnFinalize` configured, creating a batch
leaves `readyToStart` false (lines 180-183), so `on_quit` takes its
immediate-exit path (lines 81-85) even though the batch is open and a disc
is still being processed — the process exits without waiting for the
current job. -/
theorem C4_counterexample :
    ((run (initState false true)
        [GuiEvent.create,
         GuiEvent.submitKey
           { catidEntry := "", titleEntry := "Disc C", volumeNoEntry := "1",
             lookup := fun _ => none, confirmTitle := fun _ => true,
             jobID := "jobC" },
         GuiEvent.quit]).exited = true) ∧
    ((run (initState false true)
        [GuiEvent.create,
         GuiEvent.submitKey
           { catidEntry := "", titleEntry := "Disc C", volumeNoEntry := "1",
             lookup := fun _ => none, confirmTitle := fun _ => true,
             jobID := "jobC" },
         GuiEvent.quit]).processingDisc = true) ∧
    ((run (initState false true)
        [GuiEvent.create,
         GuiEvent.submitKey
           { catidEntry := "", titleEntry := "Disc C", volumeNoEntry := "1",
             lookup := fun _ => none, confirmTitle := fun _ => true,
             jobID := "jobC" },
         GuiEvent.quit]).workers = 1) ∧
    ((run (initState false true)
        [GuiEvent.create,
         GuiEvent.submitKey
           { catidEntry := "", titleEntry := "Disc C", volumeNoEntry := "1",
             lookup := fun _ => none, confirmTitle := fun _ => true,
             jobID := "jobC" },
         GuiEvent.quit]).batchIsOpen = true) :=
  ⟨by decide, by decide, by decide, by decide⟩

/-- C4 amended: when quit is requested while `readyToStart` is set (a batch
has been created or opened and, if `startOnFinalize` is configured, the
start has been released) and a disc is being processed, the process does
not exit until the processingDisc flag has been cleared — whenever the
process has exited, quit had observed `readyToStart` false or
`processingDisc` false — and no new job is accepted once quit has been
requested. -/
theorem C4_amended (e f : Bool) (evs evs2 : List GuiEvent) :
    ((run (initState e f) evs).exited = true →
       (run (initState e f) evs).readyToStart = false ∨
       (run (initState e f) evs).processingDisc = false) ∧
    ((run (initState e f) evs).quitFlag = true →
       (run (run (initState e f) evs) evs2).jobs =
         (run (initState e f) evs).jobs) := by
  constructor
  · exact run_exitSafe evs (initState e f) (fun hx => by simp [initState] at hx)
  · intro hq
    exact run_halted_jobs evs2 _
      (run_quitHalted evs (initState e f) (fun hq0 => by simp [initState] at hq0) hq)

/-- C4 amended witness: after creating a batch and quitting with no disc in
process, the exit disjunction holds, and a Control-s submission attempted
after the quit adds no job. -/
theorem C4_amended_witness :
    ((run (initState false false) [GuiEvent.create, GuiEvent.quit]).readyToStart
        = false ∨
     (run (initState false false) [GuiEvent.create, GuiEvent.quit]).processingDisc
        = false) ∧
    (run (run (initState false false) [GuiEvent.create, GuiEvent.quit])
        [GuiEvent.submitKey
          { catidEntry := "", titleEntry := "Disc D", volumeNoEntry := "1",
            lookup := fun _ => none, confirmTitle := fun _ => true,
            jobID := "jobD" }]).jobs =
      (run (initState false false) [GuiEvent.create, GuiEvent.quit]).jobs :=
  ⟨(C4_amended false false [GuiEvent.create, GuiEvent.quit] []).1 (by decide),
   (C4_amended false false [GuiEvent.create, GuiEvent.quit]
      [GuiEvent.submitKey
        { catidEntry := "", titleEntry := "Disc D", volumeNoEntry := "1",
          lookup := fun _ => none, confirmTitle := fun _ => true,
          jobID := "jobD" }]).2 (by decide)⟩

/-- C8 counterexample: with `startOnFinalize` configured, after a rejected
submission (volume number 0) `processingDisc` is stuck true and the batch
is open, yet a quit request exits immediately (lines 81-85) instead of
waiting indefinitely, because `on_quit` gates the wait on `readyToStart`,
not on `batchIsOpen`. -/
theorem C8_counterexample :
    ((run (initState false true)
        [GuiEvent.create,
         GuiEvent.submitKey
           { catidEntry := "", titleEntry := "Disc E", volumeNoEntry := "0",
             lookup := fun _ => none, confirmTitle := fun _ => true,
             jobID := "jobE" }]).processingDisc = true) ∧
    ((run (initState false true)
        [GuiEvent.create,
         GuiEvent.submitKey
           { catidEntry := "", titleEntry := "Disc E", volumeNoEntry := "0",
             lookup := fun _ => none, confirmTitle := fun _ => true,
             jobID := "jobE" }]).workers = 0) ∧
    ((run (initState false true)
        [GuiEvent.create,
         GuiEvent.submitKey
           { catidEntry := "", titleEntry := "Disc E", volumeNoEntry := "0",
             lookup := fun _ => none, confirmTitle := fun _ => true,
             jobID := "jobE" }]).batchIsOpen = true) ∧
    ((run (initState false true)
        [GuiEvent.create,
         GuiEvent.submitKey
           { catidEntry := "", titleEntry := "Disc E", volumeNoEntry := "0",
             lookup := fun _ => none, confirmTitle := fun _ => true,
             jobID := "jobE" },
         GuiEvent.quit]).exited = true) :=
  ⟨by decide, by decide, by decide, by decide⟩

/-- C8 amended: every run of on_submit sets processingDisc true (line 268,
before any validation) and never resets it; a submission rejected by
validation starts no worker thread and hands over no job; and from a state
with no running worker, processingDisc stuck true and readyToStart set
(batch created or opened without startOnFinalize), a quit request blocks
in the wait loop forever — the process never exits, whatever events
follow. -/
theorem C8_amended (s : GuiState) (i : SubmitInput) :
    (doSubmit s i).processingDisc = true ∧
    ((∀ c, onSubmit s.enablePPNLookup s.batchIsOpen i ≠
        SubmitOutcome.submitted c) →
      (doSubmit s i).workers = s.workers ∧ (doSubmit s i).jobs = s.jobs) ∧
    (s.workers = 0 → s.processingDisc = true → s.readyToStart = true →
      s.exited = false → s.blocked = false →
      ∀ evs, (run (step s GuiEvent.quit) evs).exited = false ∧
             (run (step s GuiEvent.quit) evs).processingDisc = true) := by
  refine ⟨doSubmit_processingDisc s i, ?_, ?_⟩
  · intro hno
    unfold doSubmit
    dsimp only
    cases honc : onSubmit s.enablePPNLookup s.batchIsOpen i <;>
      first
        | exact ⟨rfl, rfl⟩
        | exact absurd honc (hno _)
  · intro hw hpd hready hex hbl evs
    have hq : step s GuiEvent.quit = { s with quitFlag := true, blocked := true } := by
      simp [step, hex, hbl, onQuitEv, hready, hpd]
    rw [hq, run_of_frozen { s with quitFlag := true, blocked := true } evs rfl hw]
    exact ⟨hex, hpd⟩

/-- C8 amended witness: in a ready batch, a submission with volume number 0
is rejected, leaves processingDisc true and starts no worker; a subsequent
quit blocks and the process has not exited even after further main-loop and
worker events. -/
theorem C8_amended_witness :
    (doSubmit
        (run (initState false false) [GuiEvent.create])
        { catidEntry := "", titleEntry := "Disc F", volumeNoEntry := "0",
          lookup := fun _ => none, confirmTitle := fun _ => true,
          jobID := "jobF" }).processingDisc = true ∧
    ((doSubmit
        (run (initState false false) [GuiEvent.create])
        { catidEntry := "", titleEntry := "Disc F", volumeNoEntry := "0",
          lookup := fun _ => none, confirmTitle := fun _ => true,
          jobID := "jobF" }).workers =
      (run (initState false false) [GuiEvent.create]).workers) ∧
    ((run (step (run (initState false false)
          [GuiEvent.create,
           GuiEvent.submitKey
             { catidEntry := "", titleEntry := "Disc F", volumeNoEntry := "0",
               lookup := fun _ => none, confirmTitle := fun _ => true,
               jobID := "jobF" }]) GuiEvent.quit)
        [GuiEvent.tick, GuiEvent.workerFinish, GuiEvent.tick]).exited = false) :=
  ⟨(C8_amended
      (run (initState false false) [GuiEvent.create])
      { catidEntry := "", titleEntry := "Disc F", volumeNoEntry := "0",
        lookup := fun _ => none, confirmTitle := fun _ => true,
        jobID := "jobF" }).1,
   ((C8_amended
      (run (initState false false) [GuiEvent.create])
      { catidEntry := "", titleEntry := "Disc F", volumeNoEntry := "0",
        lookup := fun _ => none, confirmTitle := fun _ => true,
        jobID := "jobF" }).2.1
      (fun c h => SubmitOutcome.noConfusion h)).1,
   ((C8_amended
      (run (initState false false)
        [GuiEvent.create,
         GuiEvent.submitKey
           { catidEntry := "", titleEntry := "Disc F", volumeNoEntry := "0",
             lookup := fun _ => none, confirmTitle := fun _ => true,
             jobID := "jobF" }])
      { catidEntry := "", titleEntry := "Disc F", volumeNoEntry := "0",
        lookup := fun _ => none, confirmTitle := fun _ => true,
        jobID := "jobF" }).2.2
      (by decide) (by decide) (by decide) (by decide) (by decide)
      [GuiEvent.tick, GuiEvent.workerFinish, GuiEvent.tick]).1⟩

/-! ### getConfiguration lemmas -/

theorem requiredFields_cdDriveLetter {cf : ConfigFile} {rc : StartupRaw}
    (h : requiredFields cf = Except.ok rc) :
    cf.cdDriveLetter = some rc.cdDriveLetter := by
  unfold requiredFields at h
  repeat' split at h
  all_goals (try cases h)
  all_goals simp_all

theorem requiredFields_audioFormat {cf : ConfigFile} {rc : StartupRaw}
    (h : requiredFields cf = Except.ok rc) :
    cf.audioFormat = some rc.audioFormat := by
  unfold requiredFields at h
  repeat' split at h
  all_goals (try cases h)
  all_goals simp_all

/-- C6: the configured optical drive identifier is checked exactly once, at
initialization inside getConfiguration (lines 808-813, reached from
build_gui at line 411 before the main loop), not per job; if the configured
drive is not among the detected optical drives, startup fails fatally
before any job is accepted (no validated configuration is ever produced,
so the GUI that accepts jobs never starts). -/
theorem C6_drive_checked_at_startup (cf : ConfigFile) (fs : Filesystem)
    (drives : List String) (d : String)
    (hd : cf.cdDriveLetter = some d) (hnot : drives.contains d = false) :
    (∃ err, getConfiguration cf fs drives = Except.error err) ∧
    (∀ c, getConfiguration cf fs drives ≠ Except.ok c) := by
  have main : ∃ err, getConfiguration cf fs drives = Except.error err := by
    unfold getConfiguration
    split
    · exact ⟨_, rfl⟩
    split
    · exact ⟨_, rfl⟩
    split
    · exact ⟨_, rfl⟩
    cases hrf : requiredFields cf with
    | error e0 => exact ⟨e0, rfl⟩
    | ok rc =>
        have h1 := requiredFields_cdDriveLetter hrf
        rw [hd] at h1
        injection h1 with h1
        unfold runChecks
        repeat' split
        all_goals first
          | exact ⟨_, rfl⟩
          | (exfalso; simp_all)
  refine ⟨main, ?_⟩
  intro c hc
  obtain ⟨err, herr⟩ := main
  rw [herr] at hc
  exact Except.noConfusion hc

/-- C6 witness: with a well-formed configuration naming drive E but only
drive D detected, startup rejects every validated configuration; with
drive E detected and everything else in order, the check passes and a
configuration is produced. -/
theorem C6_drive_checked_at_startup_witness :
    getConfiguration
      { present := true, readable := true, parseOk := true,
        cdDriveLetter := some ("E"), rootDir := some ("root"),
        tempDir := some ("tmp"), secondsToTimeout := some ("600"),
        prefixBatch := some ("kb"), audioFormat := some ("wav"),
        reportFormatString := some ("r"), isoBusterExe := some ("ib"),
        dBpowerampConsoleRipExe := some ("db"), socketHost := none,
        socketPort := none, enablePPNLookup := none, startOnFinalize := none,
        enableSocketAPI := none }
      { rootDirExists := true, tempDirExists := true,
        isoBusterExeExists := true, dBpowerampExeExists := true,
        shntoolExeExists := true, flacExeExists := true,
        cdInfoExeExists := true }
      ["D"] ≠
      Except.ok
        { raw := { cdDriveLetter := "E", rootDir := "root", tempDir := "tmp",
                   secondsToTimeout := "600", prefixBatch := "kb",
                   audioFormat := "wav", reportFormatString := "r",
                   isoBusterExe := "ib", dBpowerampConsoleRipExe := "db" },
          socketHost := none, socketPort := none, enablePPNLookup := none,
          startOnFinalize := none, enableSocketAPI := none } ∧
    getConfiguration
      { present := true, readable := true, parseOk := true,
        cdDriveLetter := some ("E"), rootDir := some ("root"),
        tempDir := some ("tmp"), secondsToTimeout := some ("600"),
        prefixBatch := some ("kb"), audioFormat := some ("wav"),
        reportFormatString := some ("r"), isoBusterExe := some ("ib"),
        dBpowerampConsoleRipExe := some ("db"), socketHost := none,
        socketPort := none, enablePPNLookup := none, startOnFinalize := none,
        enableSocketAPI := none }
      { rootDirExists := true, tempDirExists := true,
        isoBusterExeExists := true, dBpowerampExeExists := true,
        shntoolExeExists := true, flacExeExists := true,
        cdInfoExeExists := true }
      ["E"] =
      Except.ok
        { raw := { cdDriveLetter := "E", rootDir := "root", tempDir := "tmp",
                   secondsToTimeout := "600", prefixBatch := "kb",
                   audioFormat := "wav", reportFormatString := "r",
                   isoBusterExe := "ib", dBpowerampConsoleRipExe := "db" },
          socketHost := none, socketPort := none, enablePPNLookup := none,
          startOnFinalize := none, enableSocketAPI := none } :=
  ⟨(C6_drive_checked_at_startup
      { present := true, readable := true, parseOk := true,
        cdDriveLetter := some ("E"), rootDir := some ("root"),
        tempDir := some ("tmp"), secondsToTimeout := some ("600"),
        prefixBatch := some ("kb"), audioFormat := some ("wav"),
        reportFormatString := some ("r"), isoBusterExe := some ("ib"),
        dBpowerampConsoleRipExe := some ("db"), socketHost := none,
        socketPort := none, enablePPNLookup := none, startOnFinalize := none,
        enableSocketAPI := none }
      { rootDirExists := true, tempDirExists := true,
        isoBusterExeExists := true, dBpowerampExeExists := true,
        shntoolExeExists := true, flacExeExists := true,
        cdInfoExeExists := true }
      ["D"] "E" rfl (by decide)).2 _,
   rfl⟩

set_option maxHeartbeats 1600000 in
/-- C7: getConfiguration validates the configured audio output format at
startup (lines 815-818, the last check): any value other than wav or flac
makes startup exit with an error, and every configuration that
getConfiguration accepts carries audio format wav or flac. -/
theorem C7_audioFormat_validated (cf : ConfigFile) (fs : Filesystem)
    (drives : List String) (a : String) (ha : cf.audioFormat = some a)
    (hw : a ≠ "wav") (hf : a ≠ "flac") :
    (∃ err, getConfiguration cf fs drives = Except.error err) ∧
    (∀ cf2 fs2 drives2 c, getConfiguration cf2 fs2 drives2 = Except.ok c →
       c.raw.audioFormat = "wav" ∨ c.raw.audioFormat = "flac") := by
  constructor
  · unfold getConfiguration
    split
    · exact ⟨_, rfl⟩
    split
    · exact ⟨_, rfl⟩
    split
    · exact ⟨_, rfl⟩
    cases hrf : requiredFields cf with
    | error e0 => exact ⟨e0, rfl⟩
    | ok rc =>
        have h1 := requiredFields_audioFormat hrf
        rw [ha] at h1
        injection h1 with h1
        show ∃ err, runChecks rc cf fs drives = Except.error err
        unfold runChecks
        repeat' split
        all_goals first
          | exact ⟨_, rfl⟩
          | (rename_i g
             simp only [Bool.not_eq_true] at g
             rw [Bool.not_eq_false', Bool.or_eq_true, beq_iff_eq, beq_iff_eq] at g
             rcases g with g | g
             · exact absurd (h1.trans g) hw
             · exact absurd (h1.trans g) hf)
  · intro cf2 fs2 drives2 c hok
    unfold getConfiguration at hok
    split at hok
    · exact Except.noConfusion hok
    split at hok
    · exact Except.noConfusion hok
    split at hok
    · exact Except.noConfusion hok
    cases hrf : requiredFields cf2 with
    | error e0 =>
        rw [hrf] at hok
        exact Except.noConfusion hok
    | ok rc =>
        rw [hrf] at hok
        replace hok : runChecks rc cf2 fs2 drives2 = Except.ok c := hok
        unfold runChecks at hok
        repeat' split at hok
        all_goals first
          | exact Except.noConfusion hok
          | (cases hok
             rename_i g
             simp only [Bool.not_eq_true] at g
             rw [Bool.not_eq_false', Bool.or_eq_true, beq_iff_eq, beq_iff_eq] at g
             simpa using g)

/-- C7 witness: audio format mp3 is rejected for every candidate validated
configuration; the accepted configuration of the C6 witness indeed carries
format wav. -/
theorem C7_audioFormat_validated_witness :
    ({ raw := { cdDriveLetter := "E", rootDir := "root", tempDir := "tmp",
                secondsToTimeout := "600", prefixBatch := "kb",
                audioFormat := "wav", reportFormatString := "r",
                isoBusterExe := "ib", dBpowerampConsoleRipExe := "db" },
       socketHost := none, socketPort := none, enablePPNLookup := none,
       startOnFinalize := none, enableSocketAPI := none } :
         StartupConfig).raw.audioFormat = "wav" ∨
    ({ raw := { cdDriveLetter := "E", rootDir := "root", tempDir := "tmp",
                secondsToTimeout := "600", prefixBatch := "kb",
                audioFormat := "wav", reportFormatString := "r",
                isoBusterExe := "ib", dBpowerampConsoleRipExe := "db" },
       socketHost := none, socketPort := none, enablePPNLookup := none,
       startOnFinalize := none, enableSocketAPI := none } :
         StartupConfig).raw.audioFormat = "flac" :=
  (C7_audioFormat_validated
    { present := true, readable := true, parseOk := true,
      cdDriveLetter := some ("E"), rootDir := some ("root"),
      tempDir := some ("tmp"), secondsToTimeout := some ("600"),
      prefixBatch := some ("kb"), audioFormat := some ("mp3"),
      reportFormatString := some ("r"), isoBusterExe := some ("ib"),
      dBpowerampConsoleRipExe := some ("db"), socketHost := none,
      socketPort := none, enablePPNLookup := none, startOnFinalize := none,
      enableSocketAPI := none }
    { rootDirExists := true, tempDirExists := true,
      isoBusterExeExists := true, dBpowerampExeExists := true,
      shntoolExeExists := true, flacExeExists := true,
      cdInfoExeExists := true }
    ["E"] "mp3" rfl (by decide) (by decide)).2
    { present := true, readable := true, parseOk := true,
      cdDriveLetter := some ("E"), rootDir := some ("root"),
      tempDir := some ("tmp"), secondsToTimeout := some ("600"),
      prefixBatch := some ("kb"), audioFormat := some ("wav"),
      reportFormatString := some ("r"), isoBusterExe := some ("ib"),
      dBpowerampConsoleRipExe := some ("db"), socketHost := none,
      socketPort := none, enablePPNLookup := none, startOnFinalize := none,
      enableSocketAPI := none }
    { rootDirExists := true, tempDirExists := true,
      isoBusterExeExists := true, dBpowerampExeExists := true,
      shntoolExeExists := true, flacExeExists := true,
      cdInfoExeExists := true }
    ["E"]
    { raw := { cdDriveLetter := "E", rootDir := "root", tempDir := "tmp",
               secondsToTimeout := "600", prefixBatch := "kb",
               audioFormat := "wav", reportFormatString := "r",
               isoBusterExe := "ib", dBpowerampConsoleRipExe := "db" },
      socketHost := none, socketPort := none, enablePPNLookup := none,
      startOnFinalize := none, enableSocketAPI := none }
    rfl

end Iromlab
